import Mathlib

/-!
Shallow embedding of the sidecar process supervisor in
`src/desktop/src-tauri/src/lib.rs` (Tauri desktop shell of the cloudwork
repository), together with theorems settling the spec claims about it.

The embedding models the production (`not(debug_assertions)`) code paths:
the Lifecycle Registry (`ApiSidecar`, a `Mutex<Option<CommandChild>>` slot),
the exit-event handler (Shutdown Coordinator), the sidecar event-routing
loop, the setup/spawn path, the port reaper `kill_existing_api_process`
(unix branch), and the SQL migration registry.  Child process handles
(`CommandChild`) are modelled as opaque values of a type parameter or `Nat`;
OS interactions (command output, spawn results) are supplied as explicit
environment values; side effects (log writes, kill signals, sleeps) are
collected into explicit effect traces.
-/

namespace Cloudwork

/-! ## Lifecycle Registry

`struct ApiSidecar(Mutex<Option<CommandChild>>);` — a single `Option` slot.
The two operations the source performs on the slot are the overwriting
assignment `*guard = Some(child)` (store) and `guard.take()` (take).
The mutex serialises accesses; each locked access is modelled as one atomic
function application on the slot contents. -/

/-- `*guard = Some(child)`: overwrite the slot with the new handle. -/
def store (_slot : Option α) (child : α) : Option α :=
  some child

/-- `guard.take()`: return the current contents and leave the slot empty. -/
def take (slot : Option α) : Option α × Option α :=
  (slot, none)

/-- Results of `n` successive `take` calls on a slot (first component:
the values returned, in order). -/
def takeResults : Option α → Nat → List (Option α)
  | _, 0 => []
  | s, n + 1 => (take s).1 :: takeResults (take s).2 n

/-- Slot contents after `n` successive `take` calls. -/
def slotAfterTakes : Option α → Nat → Option α
  | s, 0 => s
  | s, n + 1 => slotAfterTakes (take s).2 n

theorem takeResults_none (n : Nat) :
    takeResults (none : Option α) n = List.replicate n none := by
  induction n with
  | zero => rfl
  | succ n ih => simp [takeResults, take, ih, List.replicate]

theorem slotAfterTakes_none (n : Nat) :
    slotAfterTakes (none : Option α) n = none := by
  induction n with
  | zero => rfl
  | succ n ih => simpa [slotAfterTakes, take] using ih

/-- **C1.** After exactly one store of a handle into the empty slot, the
first `take` returns that handle and every subsequent `take` returns
nothing, and the slot is left empty (at-most-once hand-off). -/
theorem registry_at_most_once_handoff (child : α) (n : Nat) :
    takeResults (store none child) (n + 1) = some child :: List.replicate n none ∧
    slotAfterTakes (store none child) (n + 1) = none := by
  constructor
  · simp [takeResults, take, store, takeResults_none]
  · simp [slotAfterTakes, take, store, slotAfterTakes_none]

/-! ## Sidecar events and the Event Router

`CommandEvent` (from `tauri_plugin_shell::process`) is a non-exhaustive
enum; the four variants the router matches are `Stdout`, `Stderr`, `Error`
and `Terminated`.  The catch-all arm `_ => {}` of the source `match` is
modelled by the `Other` constructor (indexed by `Nat` to stand for any
number of further variants).  Output lines arrive as bytes and are decoded
with `String::from_utf8_lossy`; the decoded text is carried opaquely as the
payload, since the router only forwards it to the log sink. -/

inductive CommandEvent where
  | Stdout (line : String)
  | Stderr (line : String)
  | Error (message : String)
  | Terminated (code : Option Int) (signal : Option Int)
  | Other (k : Nat)
deriving DecidableEq, Repr

/-- One write to the logging sink, tagged by the channel used in the
source: `println!("[API] {}")`, `eprintln!("[API Error] {}")`,
`eprintln!("[API Spawn Error] {}")`, and the termination log line. -/
inductive LogWrite where
  | apiOut (line : String)
  | apiErr (line : String)
  | apiSpawnError (message : String)
  | apiTerminated (code : Option Int) (signal : Option Int)
deriving DecidableEq, Repr

/-- The event-router loop spawned in `setup`:
`while let Some(event) = rx.recv().await { match event { ... } }`.
Input: the sequence of events the channel would deliver.  Output: the log
writes performed, and the events left unconsumed (the loop `break`s on
`Terminated`, so everything after a `Terminated` event is never received). -/
def router : List CommandEvent → List LogWrite × List CommandEvent
  | [] => ([], [])
  | .Stdout line :: rest =>
      let r := router rest
      (.apiOut line :: r.1, r.2)
  | .Stderr line :: rest =>
      let r := router rest
      (.apiErr line :: r.1, r.2)
  | .Error message :: rest =>
      let r := router rest
      (.apiSpawnError message :: r.1, r.2)
  | .Terminated code signal :: rest => ([.apiTerminated code signal], rest)
  | .Other _ :: rest => router rest

/-- Whether an event is the `Terminated` variant. -/
def isTerminatedEvent : CommandEvent → Bool
  | .Terminated _ _ => true
  | _ => false

/-- Whether a log write is a standard-output (`[API]` line) write. -/
def isStdoutWrite : LogWrite → Bool
  | .apiOut _ => true
  | _ => false

theorem router_consumes_all_without_terminated (evs : List CommandEvent)
    (h : ∀ e ∈ evs, isTerminatedEvent e = false) :
    (router evs).2 = [] := by
  induction evs with
  | nil => rfl
  | cons e rest ih =>
      have hrest : ∀ x ∈ rest, isTerminatedEvent x = false := by
        intro x hx; exact h x (List.mem_cons_of_mem _ hx)
      cases e with
      | Stdout line => simpa [router] using ih hrest
      | Stderr line => simpa [router] using ih hrest
      | Error message => simpa [router] using ih hrest
      | Terminated code signal => simp [isTerminatedEvent] at h
      | Other k => simpa [router] using ih hrest

/-- **C5.** On the event sequence `{Stdout, Stdout, Terminated}` the router
performs exactly two standard-output log writes (plus the termination log),
stops at the `Terminated` event, and leaves any further events unconsumed. -/
theorem router_two_stdout_then_terminated (a b : String)
    (code signal : Option Int) (extra : List CommandEvent) :
    router (.Stdout a :: .Stdout b :: .Terminated code signal :: extra) =
      ([.apiOut a, .apiOut b, .apiTerminated code signal], extra) ∧
    ((router (.Stdout a :: .Stdout b :: .Terminated code signal :: extra)).1.filter
        isStdoutWrite).length = 2 := by
  constructor
  · rfl
  · simp [router, isStdoutWrite]

/-- **C8.** A `SpawnFailure` (`CommandEvent::Error`) is logged as an error
and the router keeps consuming the remaining stream; and as long as no
`Terminated` event occurs, the router never stops (it consumes the whole
stream). -/
theorem router_error_continues (message : String) (rest : List CommandEvent) :
    (router (.Error message :: rest)).1 =
      .apiSpawnError message :: (router rest).1 ∧
    (router (.Error message :: rest)).2 = (router rest).2 ∧
    ((∀ e ∈ rest, isTerminatedEvent e = false) → (router rest).2 = []) := by
  refine ⟨rfl, rfl, ?_⟩
  exact router_consumes_all_without_terminated rest

/-- Witness for `router_error_continues` at a concrete input. -/
theorem router_error_continues_witness :
    (router [.Error "boom", .Stdout "ready"]).1 =
      .apiSpawnError "boom" :: (router [.Stdout "ready"]).1 ∧
    (router [.Error "boom", .Stdout "ready"]).2 = (router [.Stdout "ready"]).2 ∧
    (router [CommandEvent.Stdout "ready"]).2 = [] := by
  obtain ⟨h1, h2, h3⟩ := router_error_continues "boom" [.Stdout "ready"]
  exact ⟨h1, h2, h3 (by decide)⟩

/-- **C10.** Every event variant other than `Stdout`, `Stderr`, `Error` and
`Terminated` falls into the source's `_ => {}` arm: the router writes no
log, does not stop, and continues with the rest of the stream exactly as if
the event had not arrived. -/
theorem router_ignores_other_variants (k : Nat) (rest : List CommandEvent) :
    router (.Other k :: rest) = router rest := by
  rfl

/-! ## Shutdown Coordinator (the `RunEvent::Exit` handler)

The closure passed to `.run(...)`: on `RunEvent::Exit` it logs, takes the
handle out of the `ApiSidecar` slot, kills it if present (the `Result` of
`kill()` is discarded by `let _ =`), and then unconditionally calls
`kill_existing_api_process(2620)`.  Handles (`CommandChild`) are modelled
as `Nat`; the observable actions are collected as an effect trace. -/

inductive ExitEffect where
  | log (msg : String)
  | killHandle (child : Nat)
  | reapPort (port : Nat)
deriving DecidableEq, Repr

/-- The exit-handler body, as a function of the registry slot contents.
Returns the new slot contents and the trace of effects, in order. -/
def exitHandler (slot : Option Nat) : Option Nat × List ExitEffect :=
  let t := take slot
  let killFx : List ExitEffect :=
    match t.1 with
    | some child =>
        [.log "[App] Killing API sidecar process...", .killHandle child]
    | none => []
  (t.2,
    (ExitEffect.log "[App] Cleaning up API sidecar..." :: killFx) ++
      [ExitEffect.reapPort 2620])

/-- The full run-event callback (`if let tauri::RunEvent::Exit = event`):
every event other than `Exit` leaves the slot unchanged and does nothing. -/
inductive RunEvent where
  | Exit
  | Other (k : Nat)
deriving DecidableEq, Repr

def runCallback (slot : Option Nat) : RunEvent → Option Nat × List ExitEffect
  | .Exit => exitHandler slot
  | .Other _ => (slot, [])

/-- Number of kill signals sent through sidecar handles in a trace. -/
def killCount (fx : List ExitEffect) : Nat :=
  fx.countP fun f =>
    match f with
    | .killHandle _ => true
    | _ => false

/-- Number of Port Reaper invocations on `port` in a trace. -/
def reapCount (port : Nat) (fx : List ExitEffect) : Nat :=
  fx.countP fun f =>
    match f with
    | .reapPort p => p = port
    | _ => false

/-- **C2.** The Shutdown Coordinator is idempotent: across two successive
invocations of the exit handler at most one kill is issued on a sidecar
handle, the second invocation issues none (because `take` returns nothing
the second time) and it completes with the normal no-handle trace. -/
theorem exitHandler_idempotent (slot : Option Nat) :
    killCount (exitHandler slot).2 +
        killCount (exitHandler (exitHandler slot).1).2 ≤ 1 ∧
    (take (exitHandler slot).1).1 = none ∧
    (exitHandler (exitHandler slot).1).2 =
      [.log "[App] Cleaning up API sidecar...", .reapPort 2620] := by
  cases slot with
  | none => exact ⟨by decide, rfl, rfl⟩
  | some child =>
      refine ⟨?_, rfl, rfl⟩
      simp [exitHandler, take, killCount]

/-- **C3.** On every exit event the handler invokes the Port Reaper on port
2620 exactly once, as its final step, after the kill-via-handle step —
whether or not a handle was present in the registry. -/
theorem exitHandler_always_reaps (slot : Option Nat) :
    (exitHandler slot).2.getLast? = some (.reapPort 2620) ∧
    reapCount 2620 (exitHandler slot).2 = 1 := by
  cases slot with
  | none => exact ⟨rfl, by decide⟩
  | some child =>
      constructor
      · rfl
      · simp [exitHandler, take, reapCount]

/-! ## Service Launcher and the `setup` path

`setup` first calls `kill_existing_api_process(API_PORT)`, then resolves
the pre-registered sidecar executable (`app.shell().sidecar("workany-api")`
followed by `.unwrap()`, which panics on failure), injects the environment
(`PORT`, `NODE_ENV`), spawns it (`.spawn().expect("Failed to spawn API
sidecar")`, which panics on failure), stores the child handle in the
registry and spawns the router task on the event receiver.  The two OS
outcomes (resolution and spawn) are supplied as an environment. -/

/-- The fixed service port: `const API_PORT: u16 = 2620;`. -/
def API_PORT : Nat := 2620

structure SetupEnv where
  /-- Result of `app.shell().sidecar("workany-api")`. -/
  resolve : Except String Unit
  /-- Result of `sidecar_command.spawn()`: a child handle and the event
  stream the receiver would deliver, or the OS error. -/
  spawn : Except String (Nat × List CommandEvent)

/-- `launch`: resolution followed by spawn, as the combined fallible
operation the spec calls the Service Launcher. -/
def launch (env : SetupEnv) : Except String (Nat × List CommandEvent) :=
  match env.resolve with
  | .error e => .error e
  | .ok _ => env.spawn

inductive SetupOutcome where
  | completed (registry : Option Nat) (rx : List CommandEvent)
  | panicked (msg : String) (registry : Option Nat)
deriving DecidableEq, Repr

/-- The production branch of the `setup` closure, as a function of the OS
outcomes.  A panic (from `.unwrap()` or `.expect(...)`) aborts application
startup; the registry starts empty and is only written after a successful
spawn. -/
def setup (env : SetupEnv) : SetupOutcome :=
  match env.resolve with
  | .error e => .panicked ("called `Result::unwrap()` on an `Err` value: " ++ e) none
  | .ok _ =>
      match env.spawn with
      | .error e => .panicked ("Failed to spawn API sidecar: " ++ e) none
      | .ok (child, rx) => .completed (store none child) rx

def SetupOutcome.registry : SetupOutcome → Option Nat
  | .completed r _ => r
  | .panicked _ r => r

def SetupOutcome.aborted : SetupOutcome → Bool
  | .panicked _ _ => true
  | .completed _ _ => false

/-- **C4.** If the executable cannot be resolved or the OS refuses to start
it, `launch` fails, application startup aborts with an explicit fatal error
(a panic message), and the Lifecycle Registry remains empty. -/
theorem setup_aborts_on_spawn_failure (env : SetupEnv) (e : String)
    (h : launch env = .error e) :
    (∃ msg, setup env = .panicked msg none) ∧
    (setup env).aborted = true ∧ (setup env).registry = none := by
  cases hres : env.resolve with
  | error re =>
      simp [setup, hres, SetupOutcome.aborted, SetupOutcome.registry]
  | ok u =>
      cases hsp : env.spawn with
      | error se =>
          simp [setup, hres, hsp, SetupOutcome.aborted, SetupOutcome.registry]
      | ok pr =>
          exfalso
          rw [launch, hres, hsp] at h
          exact Except.noConfusion h

/-- Witness for `setup_aborts_on_spawn_failure`: the missing-executable
scenario (the OS reports the sidecar binary cannot be started). -/
theorem setup_aborts_on_spawn_failure_witness :
    (∃ msg, setup ⟨.ok (), .error "No such file or directory"⟩ =
      .panicked msg none) ∧
    (setup ⟨.ok (), .error "No such file or directory"⟩).aborted = true ∧
    (setup ⟨.ok (), .error "No such file or directory"⟩).registry = none :=
  setup_aborts_on_spawn_failure ⟨.ok (), .error "No such file or directory"⟩
    "No such file or directory" rfl

/-! ## Port Reaper: `kill_existing_api_process` (unix branch)

`fn kill_existing_api_process(port: u16)` runs `lsof -ti :{port}`; if that
command returns `Ok(output)` it iterates the lines of the (lossily decoded)
stdout, parses each trimmed line as an `i32`, and for each parsed pid logs
and runs `kill -9 {pid}`, whose `Result` is discarded (`let _ = ...`).
Finally it always sleeps 500ms.  The function returns `()` — it has no
error path.  The OS is modelled by the `lsof` result (stdout given as its
list of lines) and the outcome of each `kill` invocation; the latter is
part of the environment precisely so that theorems can state that the
reaper's behaviour never depends on it. -/

structure CmdOutput where
  /-- Lines of the process's stdout after `String::from_utf8_lossy`. -/
  stdoutLines : List String
deriving DecidableEq, Repr

structure ReapEnv where
  /-- Result of `Command::new("lsof").args(...).output()`. -/
  lsof : Except String CmdOutput
  /-- Result of `Command::new("kill").args(["-9", pid]).output()` for each
  pid; discarded by the source (`let _ =`). -/
  kill : Int → Except String CmdOutput

inductive ReapEffect where
  | logKill (port : Nat) (pid : Int)
  | killPid (pid : Int)
  | sleepMs (ms : Nat)
deriving DecidableEq, Repr

/-- `pid.trim().parse::<i32>()`: parse with the `i32` range check. -/
def parseI32 (s : String) : Option Int :=
  match s.trim.toInt? with
  | some n => if -(2 ^ 31) ≤ n ∧ n < 2 ^ 31 then some n else none
  | none => none

/-- The effect trace and return value of `kill_existing_api_process`. -/
def kill_existing_api_process (env : ReapEnv) (port : Nat) :
    List ReapEffect × Unit :=
  let killFx : List ReapEffect :=
    match env.lsof with
    | .ok output =>
        output.stdoutLines.flatMap fun pidLine =>
          match parseI32 pidLine with
          | some pid => [.logKill port pid, .killPid pid]
          | none => []
    | .error _ => []
  (killFx ++ [.sleepMs 500], ())

/-- **C6.** The Port Reaper never raises an error to its caller: for every
environment and port it returns `()`; zero processes found is not an error
(the call still completes with just the settle sleep); and the outcome of
the `kill` invocations is ignored — the reaper's entire behaviour is
unchanged under any change to the kill results. -/
theorem reaper_never_errors (env : ReapEnv) (port : Nat) :
    (kill_existing_api_process env port).2 = () ∧
    (env.lsof = .ok ⟨[]⟩ →
      (kill_existing_api_process env port).1 = [.sleepMs 500]) ∧
    (∀ env₂ : ReapEnv, env₂.lsof = env.lsof →
      kill_existing_api_process env₂ port =
        kill_existing_api_process env port) := by
  refine ⟨rfl, ?_, ?_⟩
  · intro h
    simp [kill_existing_api_process, h]
  · intro env₂ h
    simp [kill_existing_api_process, h]

/-- Witness for `reaper_never_errors`: a port with no bound process and a
kill environment that always fails. -/
theorem reaper_never_errors_witness :
    (kill_existing_api_process ⟨.ok ⟨[]⟩, fun _ => .error "No such process"⟩
        2620).2 = () ∧
    (kill_existing_api_process ⟨.ok ⟨[]⟩, fun _ => .error "No such process"⟩
        2620).1 = [.sleepMs 500] ∧
    kill_existing_api_process ⟨.ok ⟨[]⟩, fun _ => .ok ⟨[]⟩⟩ 2620 =
      kill_existing_api_process ⟨.ok ⟨[]⟩, fun _ => .error "No such process"⟩
        2620 := by
  obtain ⟨h1, h2, h3⟩ :=
    reaper_never_errors ⟨.ok ⟨[]⟩, fun _ => .error "No such process"⟩ 2620
  exact ⟨h1, h2 rfl, h3 ⟨.ok ⟨[]⟩, fun _ => .ok ⟨[]⟩⟩ rfl⟩

/-- **C7.** The Port Reaper's final step on every call, whatever the `lsof`
result and however many processes were found or killed, is the fixed 500ms
settle sleep. -/
theorem reaper_always_sleeps_last (env : ReapEnv) (port : Nat) :
    ((kill_existing_api_process env port).1).getLast? = some (.sleepMs 500) := by
  simp [kill_existing_api_process]

/-! ## Migration registry

The `migrations` vector built at the top of `run` and handed to
`tauri_plugin_sql`.  The SQL strings are reproduced verbatim from the
source (apostrophes written with the `\x27` escape). -/

inductive MigrationKind where
  | Up
  | Down
deriving DecidableEq, Repr

structure Migration where
  version : Nat
  description : String
  sql : String
  kind : MigrationKind
deriving DecidableEq, Repr

def migrations : List Migration := [
  { version := 1,
    description := "create_tasks_and_messages_tables",
    sql := "
                CREATE TABLE IF NOT EXISTS tasks (
                    id TEXT PRIMARY KEY NOT NULL,
                    prompt TEXT NOT NULL,
                    status TEXT NOT NULL DEFAULT \x27running\x27,
                    cost REAL,
                    duration INTEGER,
                    created_at TEXT NOT NULL DEFAULT (datetime(\x27now\x27)),
                    updated_at TEXT NOT NULL DEFAULT (datetime(\x27now\x27))
                );

                CREATE TABLE IF NOT EXISTS messages (
                    id INTEGER PRIMARY KEY AUTOINCREMENT,
                    task_id TEXT NOT NULL,
                    type TEXT NOT NULL,
                    content TEXT,
                    tool_name TEXT,
                    tool_input TEXT,
                    subtype TEXT,
                    error_message TEXT,
                    created_at TEXT NOT NULL DEFAULT (datetime(\x27now\x27)),
                    FOREIGN KEY (task_id) REFERENCES tasks(id) ON DELETE CASCADE
                );

                CREATE INDEX IF NOT EXISTS idx_messages_task_id ON messages(task_id);
            ",
    kind := .Up },
  { version := 2,
    description := "add_tool_result_fields",
    sql := "
                ALTER TABLE messages ADD COLUMN tool_output TEXT;
                ALTER TABLE messages ADD COLUMN tool_use_id TEXT;
            ",
    kind := .Up },
  { version := 3,
    description := "create_files_table",
    sql := "
                CREATE TABLE IF NOT EXISTS files (
                    id INTEGER PRIMARY KEY AUTOINCREMENT,
                    task_id TEXT NOT NULL,
                    name TEXT NOT NULL,
                    type TEXT NOT NULL,
                    path TEXT NOT NULL,
                    preview TEXT,
                    thumbnail TEXT,
                    is_favorite INTEGER NOT NULL DEFAULT 0,
                    created_at TEXT NOT NULL DEFAULT (datetime(\x27now\x27)),
                    FOREIGN KEY (task_id) REFERENCES tasks(id) ON DELETE CASCADE
                );

                CREATE INDEX IF NOT EXISTS idx_files_task_id ON files(task_id);
            ",
    kind := .Up },
  { version := 4,
    description := "create_settings_table",
    sql := "
                CREATE TABLE IF NOT EXISTS settings (
                    key TEXT PRIMARY KEY NOT NULL,
                    value TEXT NOT NULL,
                    updated_at TEXT NOT NULL DEFAULT (datetime(\x27now\x27))
                );
            ",
    kind := .Up },
  { version := 5,
    description := "create_sessions_table_and_update_tasks",
    sql := "
                CREATE TABLE IF NOT EXISTS sessions (
                    id TEXT PRIMARY KEY NOT NULL,
                    prompt TEXT NOT NULL,
                    task_count INTEGER NOT NULL DEFAULT 0,
                    created_at TEXT NOT NULL DEFAULT (datetime(\x27now\x27)),
                    updated_at TEXT NOT NULL DEFAULT (datetime(\x27now\x27))
                );

                ALTER TABLE tasks ADD COLUMN session_id TEXT;
                ALTER TABLE tasks ADD COLUMN task_index INTEGER DEFAULT 1;

                CREATE INDEX IF NOT EXISTS idx_tasks_session_id ON tasks(session_id);
            ",
    kind := .Up },
  { version := 6,
    description := "add_attachments_to_messages",
    sql := "
                ALTER TABLE messages ADD COLUMN attachments TEXT;
            ",
    kind := .Up },
  { version := 7,
    description := "add_favorite_to_tasks",
    sql := "
                ALTER TABLE tasks ADD COLUMN favorite INTEGER DEFAULT 0;
            ",
    kind := .Up }
]

/-- Split a character sequence at every semicolon (SQL statement
separator). -/
def splitSemi : List Char → List (List Char)
  | [] => [[]]
  | c :: rest =>
      if c = ';' then [] :: splitSemi rest
      else
        match splitSemi rest with
        | [] => [[c]]
        | h :: t => (c :: h) :: t

/-- Strip leading and trailing whitespace from a character sequence. -/
def trimChars (s : List Char) : List Char :=
  ((s.dropWhile Char.isWhitespace).reverse.dropWhile Char.isWhitespace).reverse

/-- The individual (non-empty, trimmed) SQL statements of a migration
script. -/
def sqlStatements (sql : String) : List (List Char) :=
  ((splitSemi sql.data).map trimChars).filter fun l => !l.isEmpty

/-- Formalisation of the spec's phrase for one statement: an idempotent
("if not exists") schema statement, i.e. a create guarded by
`IF NOT EXISTS`. -/
def statementIdempotent (st : List Char) : Bool :=
  List.isPrefixOf "CREATE TABLE IF NOT EXISTS".data st ||
  List.isPrefixOf "CREATE INDEX IF NOT EXISTS".data st

/-- An `ALTER TABLE` statement (carries no "if not exists" guard; SQLite
has no such guard for `ADD COLUMN`). -/
def statementIsAlter (st : List Char) : Bool :=
  List.isPrefixOf "ALTER TABLE".data st

/-- Formalisation of the spec's claim for one record: every statement of
its SQL is an idempotent ("if not exists") schema statement. -/
def migrationIdempotent (m : Migration) : Bool :=
  (sqlStatements m.sql).all statementIdempotent

/-- Whether a list of version numbers is strictly increasing (each entry
strictly greater than the previous one). -/
def versionsStrictlyIncreasing : List Nat → Bool
  | a :: b :: rest => decide (a < b) && versionsStrictlyIncreasing (b :: rest)
  | _ => true

set_option maxRecDepth 100000 in
/-- **C9, counterexample.** It is not the case that every record's SQL
consists of idempotent ("if not exists") schema statements: the record
with version 2 (`add_tool_result_fields`) consists of `ALTER TABLE ... ADD
COLUMN` statements with no such guard, so re-applying it to an
already-migrated store is not a no-op (SQLite rejects a duplicate column). -/
theorem migration_idempotence_counterexample :
    migrations[1]?.map Migration.version = some 2 ∧
    migrations[1]?.map migrationIdempotent = some false ∧
    migrations.all migrationIdempotent = false := by
  decide

set_option maxRecDepth 100000 in
/-- **C9, amended.** Every record in the migration registry carries a
version strictly greater than the previous record's; every statement of
every record's SQL is either an `IF NOT EXISTS`-guarded create (table or
index) or an `ALTER TABLE ... ADD COLUMN` statement; the records whose SQL
consists entirely of idempotent ("if not exists") statements are exactly
versions 1, 3 and 4, while versions 2, 5, 6 and 7 contain unguarded
`ALTER TABLE` statements. -/
theorem migrations_versions_mono_and_creates_guarded :
    versionsStrictlyIncreasing (migrations.map Migration.version) = true ∧
    (migrations.all fun m =>
      (sqlStatements m.sql).all fun st =>
        statementIdempotent st || statementIsAlter st) = true ∧
    (migrations.map fun m => (m.version, migrationIdempotent m)) =
      [(1, true), (2, false), (3, true), (4, true),
       (5, false), (6, false), (7, false)] := by
  decide

end Cloudwork
